import Mathlib

/-!
Shallow embedding of `src/book_layout_view.py` (Book Layout Manager).

Modelling conventions:
* `PageWidget`, `SpreadWidget` and `BookLayoutApp` keep only the state the
  spreadsheet logic reads and writes: image paths, page numbers, the spread
  list and the three settings.  Rendering state (pixmaps, labels, geometry,
  the grid layout) is not modelled; `reorganize_layout` and
  `update_all_page_sizes` only touch rendering state.
* A page widget passed to an operation is identified by the index of the
  spread holding it and by its side; `find_spread_and_page` returns `-1`
  exactly when the widget is not in the list, which is modelled by an index
  `≥ spreads.length` (the operations then return the state unchanged).
* Confirmation dialogs are a `Bool` argument (`true` = the user clicked Yes),
  and file I/O outcomes are injected as `Except` values; the second component
  of `save_book` / `load_book` records whether the critical message box of
  the `except` handler was shown.
* In-bounds list indexing under a guard is written with `getD` and an
  irrelevant default.
-/

structure PageWidget where
  image_path : String
  page_number : Int
deriving DecidableEq, Repr, Inhabited

/-- `PageWidget.__init__`: the image path starts empty and the page number is
the constructor argument (geometry omitted). -/
def PageWidget.create (page_number : Int) : PageWidget :=
  { image_path := "", page_number := page_number }

/-- `PageWidget.load_image`: both branches of the source end with
`self.image_path` equal to the argument (the `else` branch re-assigns `""`,
which is the argument in that case); the pixmap update is rendering state. -/
def PageWidget.load_image (p : PageWidget) (image_path : String) : PageWidget :=
  { p with image_path := image_path }

/-- `PageWidget.update_page_number` (the `visible` flag only toggles the
label's visibility, which mirrors the app-level `show_page_numbers`). -/
def PageWidget.update_page_number (p : PageWidget) (number : Int) : PageWidget :=
  { p with page_number := number }

structure SpreadWidget where
  left_page : PageWidget
  right_page : PageWidget
deriving DecidableEq, Repr, Inhabited

/-- `SpreadWidget.__init__(page_width, start_number)`: creates the two page
slots together, numbered `start_number` and `start_number + 1`. -/
def SpreadWidget.create (start_number : Int) : SpreadWidget :=
  { left_page := PageWidget.create start_number
    right_page := PageWidget.create (start_number + 1) }

/-- `SpreadWidget.update_page_numbers`. -/
def SpreadWidget.update_page_numbers (s : SpreadWidget) (start_number : Int) :
    SpreadWidget :=
  { s with
    left_page := s.left_page.update_page_number start_number
    right_page := s.right_page.update_page_number (start_number + 1) }

/-- The page slots of a spread, in order. -/
def SpreadWidget.pages_of (s : SpreadWidget) : List PageWidget :=
  [s.left_page, s.right_page]

/-- The pair of image paths of a spread. -/
def SpreadWidget.spread_paths (s : SpreadWidget) : String × String :=
  (s.left_page.image_path, s.right_page.image_path)

/-- Which side of a spread a page widget occupies
(`SpreadWidget.get_page_index`: `0` = left, `1` = right). -/
inductive PageSide where
  | left : PageSide
  | right : PageSide
deriving DecidableEq, Repr

structure BookLayoutApp where
  current_page_width : Int
  spreads : List SpreadWidget
  page_number_start : Int
  show_page_numbers : Bool
deriving DecidableEq, Repr, Inhabited

namespace BookLayoutApp

/-- `BookLayoutApp.add_new_spread`. -/
def add_new_spread (b : BookLayoutApp) : BookLayoutApp :=
  let start_number := b.page_number_start + (b.spreads.length : Int) * 2
  let spread := (SpreadWidget.create start_number).update_page_numbers start_number
  { b with spreads := b.spreads ++ [spread] }

/-- `BookLayoutApp.__init__`: width 300, start number 1, numbers shown, and
one spread added by `add_new_spread`. -/
def create : BookLayoutApp :=
  add_new_spread
    { current_page_width := 300, spreads := [], page_number_start := 1
      show_page_numbers := true }

/-- `BookLayoutApp.update_all_page_numbers`. -/
def update_all_page_numbers (b : BookLayoutApp) : BookLayoutApp :=
  { b with
    spreads := b.spreads.mapIdx fun i spread =>
      spread.update_page_numbers (b.page_number_start + (i : Int) * 2) }

/-- `BookLayoutApp.toggle_page_numbers`. -/
def toggle_page_numbers (b : BookLayoutApp) (checked : Bool) : BookLayoutApp :=
  update_all_page_numbers { b with show_page_numbers := checked }

/-- `BookLayoutApp.set_start_page_number`; `ok` is the dialog result. -/
def set_start_page_number (b : BookLayoutApp) (number : Int) (ok : Bool) :
    BookLayoutApp :=
  if ok then update_all_page_numbers { b with page_number_start := number } else b

/-- `BookLayoutApp.swap_pages`: exchanges the image paths of two pages
(mirroring the source's branches on emptiness, which both load the other
page's old path). -/
def swap_pages (page1 page2 : PageWidget) : PageWidget × PageWidget :=
  let temp_path := page1.image_path
  let page1 :=
    if page2.image_path ≠ "" then page1.load_image page2.image_path
    else page1.load_image ""
  let page2 :=
    if temp_path ≠ "" then page2.load_image temp_path
    else page2.load_image ""
  (page1, page2)

/-- `BookLayoutApp.swap_with_prev_page`. -/
def swap_with_prev_page (b : BookLayoutApp) (i : Nat) (side : PageSide) :
    BookLayoutApp :=
  if i < b.spreads.length then
    let spread := b.spreads.getD i default
    update_all_page_numbers
      (match side with
       | .left =>
         if 0 < i then
           let prev_spread := b.spreads.getD (i - 1) default
           let res := swap_pages spread.left_page prev_spread.right_page
           { b with
             spreads :=
               (b.spreads.set i { spread with left_page := res.1 }).set (i - 1)
                 { prev_spread with right_page := res.2 } }
         else b
       | .right =>
         let res := swap_pages spread.right_page spread.left_page
         { b with
           spreads :=
             b.spreads.set i
               { spread with right_page := res.1, left_page := res.2 } })
  else b

/-- `BookLayoutApp.swap_with_next_page`. -/
def swap_with_next_page (b : BookLayoutApp) (i : Nat) (side : PageSide) :
    BookLayoutApp :=
  if i < b.spreads.length then
    let spread := b.spreads.getD i default
    update_all_page_numbers
      (match side with
       | .left =>
         let res := swap_pages spread.left_page spread.right_page
         { b with
           spreads :=
             b.spreads.set i
               { spread with left_page := res.1, right_page := res.2 } }
       | .right =>
         if i < b.spreads.length - 1 then
           let next_spread := b.spreads.getD (i + 1) default
           let res := swap_pages spread.right_page next_spread.left_page
           { b with
             spreads :=
               (b.spreads.set i { spread with right_page := res.1 }).set (i + 1)
                 { next_spread with left_page := res.2 } }
         else b)
  else b

/-- `BookLayoutApp.insert_new_page_before`. -/
def insert_new_page_before (b : BookLayoutApp) (i : Nat) (side : PageSide) :
    BookLayoutApp :=
  if i < b.spreads.length then
    let spread := b.spreads.getD i default
    update_all_page_numbers
      (match side with
       | .left =>
         if 0 < i then
           let prev_spread := b.spreads.getD (i - 1) default
           let new_spread := SpreadWidget.create 1
           let new_spread :=
             { new_spread with
               left_page :=
                 new_spread.left_page.load_image prev_spread.right_page.image_path }
           let new_spread :=
             { new_spread with
               right_page :=
                 new_spread.right_page.load_image spread.left_page.image_path }
           let spread :=
             { spread with
               left_page := spread.left_page.load_image spread.right_page.image_path }
           let prev_spread :=
             { prev_spread with right_page := prev_spread.right_page.load_image "" }
           let spread :=
             { spread with right_page := spread.right_page.load_image "" }
           { b with
             spreads :=
               ((b.spreads.set i spread).set (i - 1) prev_spread).insertIdx i
                 new_spread }
         else
           let new_spread := SpreadWidget.create 1
           let new_spread :=
             { new_spread with
               left_page := new_spread.left_page.load_image spread.left_page.image_path }
           let new_spread :=
             { new_spread with
               right_page :=
                 new_spread.right_page.load_image spread.right_page.image_path }
           let temp_left_image := spread.left_page.image_path
           let spread := { spread with left_page := spread.left_page.load_image "" }
           let spread :=
             { spread with right_page := spread.right_page.load_image temp_left_image }
           { b with
             spreads := (b.spreads.set i spread).insertIdx (i + 1) new_spread }
       | .right =>
         let new_spread := SpreadWidget.create 1
         let new_spread :=
           { new_spread with
             left_page := new_spread.left_page.load_image spread.right_page.image_path }
         let spread := { spread with right_page := spread.right_page.load_image "" }
         { b with
           spreads := (b.spreads.set i spread).insertIdx (i + 1) new_spread })
  else b

/-- `BookLayoutApp.insert_new_page_after`. -/
def insert_new_page_after (b : BookLayoutApp) (i : Nat) (side : PageSide) :
    BookLayoutApp :=
  if i < b.spreads.length then
    let spread := b.spreads.getD i default
    update_all_page_numbers
      (match side with
       | .left =>
         let new_spread := SpreadWidget.create 1
         let new_spread :=
           { new_spread with
             left_page := new_spread.left_page.load_image spread.right_page.image_path }
         let spread := { spread with right_page := spread.right_page.load_image "" }
         { b with
           spreads := (b.spreads.set i spread).insertIdx (i + 1) new_spread }
       | .right =>
         if i < b.spreads.length - 1 then
           let next_spread := b.spreads.getD (i + 1) default
           let new_spread := SpreadWidget.create 1
           let new_spread :=
             { new_spread with
               right_page :=
                 new_spread.right_page.load_image next_spread.left_page.image_path }
           let next_spread :=
             { next_spread with
               left_page :=
                 next_spread.left_page.load_image next_spread.right_page.image_path }
           let next_spread :=
             { next_spread with right_page := next_spread.right_page.load_image "" }
           { b with
             spreads :=
               (b.spreads.set (i + 1) next_spread).insertIdx (i + 1) new_spread }
         else
           let new_spread := SpreadWidget.create 1
           { b with spreads := b.spreads ++ [new_spread] })
  else b

/-- `BookLayoutApp.delete_page`; `confirmed` is the Yes/No dialog result. -/
def delete_page (b : BookLayoutApp) (i : Nat) (side : PageSide)
    (confirmed : Bool) : BookLayoutApp :=
  if i < b.spreads.length then
    if confirmed then
      let spread := b.spreads.getD i default
      let spread :=
        match side with
        | .left =>
          if 0 < i then
            let spread :=
              { spread with
                left_page := spread.left_page.load_image spread.right_page.image_path }
            { spread with right_page := spread.right_page.load_image "" }
          else
            { spread with left_page := spread.left_page.load_image "" }
        | .right =>
          if i < b.spreads.length - 1 then
            { spread with right_page := spread.right_page.load_image "" }
          else
            { spread with right_page := spread.right_page.load_image "" }
      let ss := b.spreads.set i spread
      let ss :=
        if spread.left_page.image_path = "" ∧ spread.right_page.image_path = "" then
          if 1 < b.spreads.length then ss.eraseIdx i else ss
        else ss
      update_all_page_numbers { b with spreads := ss }
    else b
  else b

/-- `BookLayoutApp.new_book`; `confirmed` is the Yes/No dialog result. -/
def new_book (b : BookLayoutApp) (confirmed : Bool) : BookLayoutApp :=
  if confirmed then
    add_new_spread
      { current_page_width := 300, spreads := [], page_number_start := 1
        show_page_numbers := true }
  else b

end BookLayoutApp

/-- The JSON documents handled by `save_book` / `load_book`.  Numbers are
restricted to the integers actually produced and consumed here. -/
inductive Json where
  | null : Json
  | bool : Bool → Json
  | num : Int → Json
  | str : String → Json
  | arr : List Json → Json
  | obj : List (String × Json) → Json

instance : Inhabited Json := ⟨Json.null⟩

/-- `dict.get(key, fallback)` on the field list of a JSON object (objects
coming out of `json.load` and `save_book` have no duplicate keys, so
first-match lookup is the dictionary lookup). -/
def Json.lookupD (fields : List (String × Json)) (key : String)
    (fallback : Json) : Json :=
  match fields with
  | [] => fallback
  | (k, v) :: rest => if k = key then v else Json.lookupD rest key fallback

namespace BookLayoutApp

/-- The per-spread dictionary built in the `save_book` loop. -/
def spread_to_json (spread : SpreadWidget) : Json :=
  Json.obj
    [("left_page", Json.obj [("image_path", Json.str spread.left_page.image_path)]),
     ("right_page", Json.obj [("image_path", Json.str spread.right_page.image_path)])]

/-- The `book_data` dictionary built by `save_book` before it is dumped. -/
def save_book_data (b : BookLayoutApp) : Json :=
  Json.obj
    [("settings",
      Json.obj
        [("page_width", Json.num b.current_page_width),
         ("page_number_start", Json.num b.page_number_start),
         ("show_page_numbers", Json.bool b.show_page_numbers)]),
     ("spreads", Json.arr (b.spreads.map spread_to_json))]

/-- `BookLayoutApp.save_book`: the state is never modified; `write_result` is
the outcome of `open` + `json.dump`, and the returned flag records whether the
critical message box of the `except` handler was shown. -/
def save_book (b : BookLayoutApp) (write_result : Except String Unit) :
    BookLayoutApp × Bool :=
  match write_result with
  | .ok _ => (b, false)
  | .error _ => (b, true)

/-- Reading the three settings in `load_book`.  `none` models an exception
(`.get` on a non-dictionary); a key that is present with a JSON type other
than the one the application ever writes is outside this typed model and is
also mapped to `none`. -/
def load_settings (settings : Json) : Option (Int × Int × Bool) :=
  match settings with
  | .obj fs =>
    match Json.lookupD fs "page_width" (Json.num 300) with
    | .num page_width =>
      match Json.lookupD fs "page_number_start" (Json.num 1) with
      | .num page_number_start =>
        match Json.lookupD fs "show_page_numbers" (Json.bool true) with
        | .bool show_page_numbers =>
          some (page_width, page_number_start, show_page_numbers)
        | _ => none
      | _ => none
    | _ => none
  | _ => none

/-- One iteration of the spread-loading loop of `load_book`: a fresh spread
whose slots are filled only when the saved path is non-empty and the file
exists.  `none` models an exception (`.get` on a non-dictionary entry; a
non-string `image_path` is outside the typed model). -/
def load_spread_entry (file_exists : String → Bool) (spread_data : Json) :
    Option SpreadWidget :=
  match spread_data with
  | .obj fs =>
    let spread := SpreadWidget.create 1
    match Json.lookupD fs "left_page" (Json.obj []) with
    | .obj lfs =>
      match Json.lookupD lfs "image_path" (Json.str "") with
      | .str left_image_path =>
        let spread :=
          if left_image_path ≠ "" ∧ file_exists left_image_path then
            { spread with left_page := spread.left_page.load_image left_image_path }
          else spread
        match Json.lookupD fs "right_page" (Json.obj []) with
        | .obj rfs =>
          match Json.lookupD rfs "image_path" (Json.str "") with
          | .str right_image_path =>
            let spread :=
              if right_image_path ≠ "" ∧ file_exists right_image_path then
                { spread with
                  right_page := spread.right_page.load_image right_image_path }
              else spread
            some spread
          | _ => none
        | _ => none
      | _ => none
    | _ => none
  | _ => none

/-- The spread-loading loop of `load_book`: spreads appended so far, and
whether an exception interrupted the loop. -/
def load_spreads_loop (file_exists : String → Bool) :
    List Json → List SpreadWidget × Bool
  | [] => ([], false)
  | spread_data :: rest =>
    match load_spread_entry file_exists spread_data with
    | none => ([], true)
    | some spread =>
      let res := load_spreads_loop file_exists rest
      (spread :: res.1, res.2)

/-- `BookLayoutApp.load_book`.  `confirmed` is the clear-confirmation dialog
(shown only when spreads exist); `read_result` is the outcome of `open` +
`json.load`; the returned flag records whether the critical message box of
the `except` handler was shown.  The source clears the spread list before it
touches `book_data`, so a failure after parsing leaves the partially rebuilt
list; a value under `"spreads"` that is not an array fails with nothing
appended. -/
def load_book (b : BookLayoutApp) (confirmed : Bool)
    (read_result : Except String Json) (file_exists : String → Bool) :
    BookLayoutApp × Bool :=
  if b.spreads ≠ [] ∧ ¬confirmed then (b, false)
  else
    match read_result with
    | .error _ => (b, true)
    | .ok book_data =>
      match book_data with
      | .obj fs =>
        let b := { b with spreads := [] }
        match load_settings (Json.lookupD fs "settings" (Json.obj [])) with
        | none => (b, true)
        | some (page_width, page_number_start, show_page_numbers) =>
          let b :=
            { b with
              current_page_width := page_width
              page_number_start := page_number_start
              show_page_numbers := show_page_numbers }
          match Json.lookupD fs "spreads" (Json.arr []) with
          | .arr entries =>
            let res := load_spreads_loop file_exists entries
            if res.2 then ({ b with spreads := res.1 }, true)
            else (update_all_page_numbers { b with spreads := res.1 }, false)
          | _ => (b, true)
      | _ => ({ b with spreads := [] }, true)

end BookLayoutApp

/-- The numbering invariant of the spec: the displayed number of the left
page of spread `i` is `page_number_start + 2*i`, of the right page
`page_number_start + 2*i + 1`. -/
def displayed_numbers_correct (b : BookLayoutApp) : Prop :=
  ∀ i : Nat, i < b.spreads.length →
    (b.spreads.getD i default).left_page.page_number
        = b.page_number_start + 2 * (i : Int)
      ∧ (b.spreads.getD i default).right_page.page_number
        = b.page_number_start + 2 * (i : Int) + 1

theorem update_all_spreads_length (b : BookLayoutApp) :
    (b.update_all_page_numbers).spreads.length = b.spreads.length := by
  simp [BookLayoutApp.update_all_page_numbers]

theorem update_all_displayed (b : BookLayoutApp) :
    displayed_numbers_correct b.update_all_page_numbers := by
  intro i hi
  rw [update_all_spreads_length] at hi
  have hlen : i < (b.update_all_page_numbers).spreads.length := by
    rw [update_all_spreads_length]; exact hi
  rw [List.getD_eq_getElem _ _ hlen]
  simp only [BookLayoutApp.update_all_page_numbers, List.getElem_mapIdx,
    SpreadWidget.update_page_numbers, PageWidget.update_page_number]
  constructor <;> ring

/-- C1: after `update_all_page_numbers` — run at the end of every insert,
delete, swap, successful load and start-number change — the displayed number
of the left page of spread `i` is `page_number_start + 2*i` and of the right
page `page_number_start + 2*i + 1`, for every index `i`. -/
theorem c1_page_numbers_after_update (b : BookLayoutApp) :
    displayed_numbers_correct b.update_all_page_numbers
    ∧ (∀ i side, i < b.spreads.length →
        displayed_numbers_correct (b.insert_new_page_before i side))
    ∧ (∀ i side, i < b.spreads.length →
        displayed_numbers_correct (b.insert_new_page_after i side))
    ∧ (∀ i side, i < b.spreads.length →
        displayed_numbers_correct (b.delete_page i side true))
    ∧ (∀ i side, i < b.spreads.length →
        displayed_numbers_correct (b.swap_with_prev_page i side))
    ∧ (∀ i side, i < b.spreads.length →
        displayed_numbers_correct (b.swap_with_next_page i side))
    ∧ (∀ doc file_exists,
        (b.load_book true (Except.ok doc) file_exists).2 = false →
        displayed_numbers_correct (b.load_book true (Except.ok doc) file_exists).1)
    ∧ (∀ n, displayed_numbers_correct (b.set_start_page_number n true)) := by
  refine ⟨update_all_displayed b, ?_, ?_, ?_, ?_, ?_, ?_, ?_⟩
  · intro i side h
    unfold BookLayoutApp.insert_new_page_before
    rw [if_pos h]
    exact update_all_displayed _
  · intro i side h
    unfold BookLayoutApp.insert_new_page_after
    rw [if_pos h]
    exact update_all_displayed _
  · intro i side h
    unfold BookLayoutApp.delete_page
    rw [if_pos h, if_pos rfl]
    exact update_all_displayed _
  · intro i side h
    unfold BookLayoutApp.swap_with_prev_page
    rw [if_pos h]
    exact update_all_displayed _
  · intro i side h
    unfold BookLayoutApp.swap_with_next_page
    rw [if_pos h]
    exact update_all_displayed _
  · intro doc file_exists hok
    unfold BookLayoutApp.load_book at hok ⊢
    simp only [not_true, and_false, if_neg, ite_false] at hok ⊢
    cases doc with
    | obj fs =>
      cases hls : BookLayoutApp.load_settings (Json.lookupD fs "settings" (Json.obj []))
        with
      | none => simp [hls] at hok
      | some t =>
        obtain ⟨pw, pns, spn⟩ := t
        simp only [hls] at hok ⊢
        cases hlr : Json.lookupD fs "spreads" (Json.arr []) <;> simp [hlr] at hok ⊢
        case arr entries =>
          by_cases he : (BookLayoutApp.load_spreads_loop file_exists entries).2
          · simp [he] at hok
          · simp only [he, ite_false, Bool.false_eq_true] at hok ⊢
            exact update_all_displayed _
    | null => simp at hok
    | bool x => simp at hok
    | num x => simp at hok
    | str x => simp at hok
    | arr x => simp at hok
  · intro n
    unfold BookLayoutApp.set_start_page_number
    rw [if_pos rfl]
    exact update_all_displayed _

/-- Witness for C1 at a concrete book: one spread inserted before the first
page of the freshly created book, then the first spread's numbers are `1`
and `2`. -/
theorem c1_page_numbers_after_update_witness :
    ((BookLayoutApp.create.insert_new_page_before 0 PageSide.left).spreads.getD 0
            default).left_page.page_number
        = (BookLayoutApp.create.insert_new_page_before 0
              PageSide.left).page_number_start
          + 2 * ((0 : Nat) : Int)
      ∧ ((BookLayoutApp.create.insert_new_page_before 0 PageSide.left).spreads.getD 0
            default).right_page.page_number
        = (BookLayoutApp.create.insert_new_page_before 0
              PageSide.left).page_number_start
          + 2 * ((0 : Nat) : Int) + 1 :=
  (c1_page_numbers_after_update BookLayoutApp.create).2.1 0 PageSide.left (by decide)
    0 (by decide)

theorem insert_before_spreads_length (b : BookLayoutApp) (i : Nat)
    (side : PageSide) (h : i < b.spreads.length) :
    (b.insert_new_page_before i side).spreads.length = b.spreads.length + 1 := by
  unfold BookLayoutApp.insert_new_page_before
  rw [if_pos h]
  cases side with
  | left =>
    by_cases hp : 0 < i
    · simp only [hp, if_true, update_all_spreads_length]
      rw [List.length_insertIdx _ _ (by simp; omega)]
      simp
    · simp only [hp, if_false, update_all_spreads_length]
      rw [List.length_insertIdx _ _ (by simp; omega)]
      simp
  | right =>
    simp only [update_all_spreads_length]
    rw [List.length_insertIdx _ _ (by simp; omega)]
    simp

theorem insert_after_spreads_length (b : BookLayoutApp) (i : Nat)
    (side : PageSide) (h : i < b.spreads.length) :
    (b.insert_new_page_after i side).spreads.length = b.spreads.length + 1 := by
  unfold BookLayoutApp.insert_new_page_after
  rw [if_pos h]
  cases side with
  | left =>
    simp only [update_all_spreads_length]
    rw [List.length_insertIdx _ _ (by simp; omega)]
    simp
  | right =>
    by_cases hn : i < b.spreads.length - 1
    · simp only [hn, if_true, update_all_spreads_length]
      rw [List.length_insertIdx _ _ (by simp; omega)]
      simp
    · simp only [hn, if_false, update_all_spreads_length]
      simp

theorem insert_before_not_found (b : BookLayoutApp) (i : Nat) (side : PageSide)
    (h : ¬ i < b.spreads.length) : b.insert_new_page_before i side = b := by
  unfold BookLayoutApp.insert_new_page_before
  rw [if_neg h]

theorem insert_after_not_found (b : BookLayoutApp) (i : Nat) (side : PageSide)
    (h : ¬ i < b.spreads.length) : b.insert_new_page_after i side = b := by
  unfold BookLayoutApp.insert_new_page_after
  rw [if_neg h]

/-- C10: on a page contained in some spread, `insert_new_page_before` and
`insert_new_page_after` grow the spread list by exactly one; on a page not
contained in any spread, both return the state unchanged. -/
theorem c10_insert_grows_by_one (b : BookLayoutApp) (i : Nat) (side : PageSide) :
    (i < b.spreads.length →
      (b.insert_new_page_before i side).spreads.length = b.spreads.length + 1
      ∧ (b.insert_new_page_after i side).spreads.length = b.spreads.length + 1)
    ∧ (¬ i < b.spreads.length →
      b.insert_new_page_before i side = b ∧ b.insert_new_page_after i side = b) :=
  ⟨fun h => ⟨insert_before_spreads_length b i side h,
             insert_after_spreads_length b i side h⟩,
   fun h => ⟨insert_before_not_found b i side h,
             insert_after_not_found b i side h⟩⟩

/-- Witness for C10: inserting at the only spread of a fresh book grows the
list to two spreads; index `5` is out of range and both inserts are no-ops. -/
theorem c10_insert_grows_by_one_witness :
    ((BookLayoutApp.create.insert_new_page_before 0 PageSide.right).spreads.length
        = BookLayoutApp.create.spreads.length + 1
      ∧ (BookLayoutApp.create.insert_new_page_after 0 PageSide.right).spreads.length
        = BookLayoutApp.create.spreads.length + 1)
    ∧ (BookLayoutApp.create.insert_new_page_before 5 PageSide.left
        = BookLayoutApp.create
      ∧ BookLayoutApp.create.insert_new_page_after 5 PageSide.left
        = BookLayoutApp.create) :=
  ⟨(c10_insert_grows_by_one BookLayoutApp.create 0 PageSide.right).1 (by decide),
   (c10_insert_grows_by_one BookLayoutApp.create 5 PageSide.left).2 (by decide)⟩

theorem swap_prev_spreads_length (b : BookLayoutApp) (i : Nat) (side : PageSide) :
    (b.swap_with_prev_page i side).spreads.length = b.spreads.length := by
  unfold BookLayoutApp.swap_with_prev_page
  by_cases h : i < b.spreads.length
  · rw [if_pos h]
    cases side with
    | left =>
      by_cases hp : 0 < i
      · simp [hp, update_all_spreads_length]
      · simp [hp, update_all_spreads_length]
    | right => simp [update_all_spreads_length]
  · rw [if_neg h]

theorem swap_next_spreads_length (b : BookLayoutApp) (i : Nat) (side : PageSide) :
    (b.swap_with_next_page i side).spreads.length = b.spreads.length := by
  unfold BookLayoutApp.swap_with_next_page
  by_cases h : i < b.spreads.length
  · rw [if_pos h]
    cases side with
    | left => simp [update_all_spreads_length]
    | right =>
      by_cases hn : i < b.spreads.length - 1
      · simp [hn, update_all_spreads_length]
      · simp [hn, update_all_spreads_length]
  · rw [if_neg h]

theorem delete_page_spreads_length_pos (b : BookLayoutApp) (i : Nat)
    (side : PageSide) (confirmed : Bool) (h : 0 < b.spreads.length) :
    0 < (b.delete_page i side confirmed).spreads.length := by
  unfold BookLayoutApp.delete_page
  by_cases hi : i < b.spreads.length
  · rw [if_pos hi]
    by_cases hc : confirmed
    · simp only [hc, if_true, update_all_spreads_length]
      cases side with
      | left =>
        by_cases hp : 0 < i
        · simp only [hp, if_true]
          split
          · split
            · simp only [List.length_eraseIdx, List.length_set, hi, if_true]
              omega
            · simp only [List.length_set]; omega
          · simp only [List.length_set]; omega
        · simp only [hp, if_false]
          split
          · split
            · simp only [List.length_eraseIdx, List.length_set, hi, if_true]
              omega
            · simp only [List.length_set]; omega
          · simp only [List.length_set]; omega
      | right =>
        simp only [ite_self]
        split
        · split
          · simp only [List.length_eraseIdx, List.length_set, hi, if_true]
            omega
          · simp only [List.length_set]; omega
        · simp only [List.length_set]; omega
    · simp [hc]; omega
  · rw [if_neg hi]; exact h

theorem load_spreads_loop_length (file_exists : String → Bool)
    (entries : List Json)
    (h : (BookLayoutApp.load_spreads_loop file_exists entries).2 = false) :
    (BookLayoutApp.load_spreads_loop file_exists entries).1.length
      = entries.length := by
  induction entries with
  | nil => simp [BookLayoutApp.load_spreads_loop]
  | cons e rest ih =>
    simp only [BookLayoutApp.load_spreads_loop] at h ⊢
    cases hle : BookLayoutApp.load_spread_entry file_exists e with
    | none => simp [hle] at h
    | some s =>
      simp only [hle] at h ⊢
      simp at h ⊢
      exact ih h

/-- Counterexample to C3 as stated: loading a well-formed document whose
`spreads` array is empty is an operation of the application that leaves the
spreads list empty. -/
theorem c3_counterexample :
    BookLayoutApp.create.spreads ≠ []
    ∧ (BookLayoutApp.create.load_book true
        (Except.ok (Json.obj [("settings", Json.obj []), ("spreads", Json.arr [])]))
        (fun _ => false)).1.spreads = [] := by
  decide

/-- C3 (amended): the initial state has one spread, and insert-before,
insert-after, swap, delete-with-auto-merge and new-book all preserve
non-emptiness of the spreads list, while save never changes the state; but
`load_book` rebuilds the list with exactly one spread per element of the
document's `spreads` array, so a successful load of a document with an empty
or missing `spreads` array leaves the list empty. -/
theorem c3_book_nonempty_amended :
    BookLayoutApp.create.spreads ≠ []
    ∧ (∀ (b : BookLayoutApp) (i : Nat) (side : PageSide), b.spreads ≠ [] →
        (b.insert_new_page_before i side).spreads ≠ []
        ∧ (b.insert_new_page_after i side).spreads ≠ [])
    ∧ (∀ (b : BookLayoutApp) (i : Nat) (side : PageSide), b.spreads ≠ [] →
        (b.swap_with_prev_page i side).spreads ≠ []
        ∧ (b.swap_with_next_page i side).spreads ≠ [])
    ∧ (∀ (b : BookLayoutApp) (i : Nat) (side : PageSide) (confirmed : Bool),
        b.spreads ≠ [] → (b.delete_page i side confirmed).spreads ≠ [])
    ∧ (∀ (b : BookLayoutApp) (confirmed : Bool), b.spreads ≠ [] →
        (b.new_book confirmed).spreads ≠ [])
    ∧ (∀ (b : BookLayoutApp) (write_result : Except String Unit),
        (b.save_book write_result).1 = b)
    ∧ (∀ (b : BookLayoutApp) (file_exists : String → Bool)
        (fs : List (String × Json)) (entries : List Json),
        Json.lookupD fs "spreads" (Json.arr []) = Json.arr entries →
        (b.load_book true (Except.ok (Json.obj fs)) file_exists).2 = false →
        (b.load_book true (Except.ok (Json.obj fs)) file_exists).1.spreads.length
          = entries.length) := by
  refine ⟨by decide, ?_, ?_, ?_, ?_, ?_, ?_⟩
  · intro b i side hb
    rw [← List.length_pos] at hb
    constructor
    · rw [← List.length_pos]
      by_cases h : i < b.spreads.length
      · rw [insert_before_spreads_length b i side h]; omega
      · rw [insert_before_not_found b i side h]; omega
    · rw [← List.length_pos]
      by_cases h : i < b.spreads.length
      · rw [insert_after_spreads_length b i side h]; omega
      · rw [insert_after_not_found b i side h]; omega
  · intro b i side hb
    rw [← List.length_pos] at hb
    constructor
    · rw [← List.length_pos, swap_prev_spreads_length]; omega
    · rw [← List.length_pos, swap_next_spreads_length]; omega
  · intro b i side confirmed hb
    rw [← List.length_pos] at hb
    rw [← List.length_pos]
    exact delete_page_spreads_length_pos b i side confirmed hb
  · intro b confirmed hb
    by_cases hc : confirmed
    · subst hc
      simp [BookLayoutApp.new_book, BookLayoutApp.add_new_spread]
    · simp only [BookLayoutApp.new_book, hc, if_false]
      exact hb
  · intro b write_result
    cases write_result <;> rfl
  · intro b file_exists fs entries hlook hok
    unfold BookLayoutApp.load_book at hok ⊢
    simp only [not_true, and_false, if_neg, ite_false] at hok ⊢
    cases hls : BookLayoutApp.load_settings (Json.lookupD fs "settings" (Json.obj []))
      with
    | none => simp [hls] at hok
    | some t =>
      obtain ⟨pw, pns, spn⟩ := t
      simp only [hls, hlook] at hok ⊢
      by_cases he : (BookLayoutApp.load_spreads_loop file_exists entries).2
      · simp [he] at hok
      · simp only [he, ite_false, Bool.false_eq_true] at hok ⊢
        rw [update_all_spreads_length]
        exact load_spreads_loop_length _ _ (by simpa using he)

/-- Witness for C3 (amended) at concrete inputs: deleting the only page of a
fresh book keeps one spread, and a successful load of a one-entry document
produces one spread. -/
theorem c3_book_nonempty_amended_witness :
    (BookLayoutApp.create.delete_page 0 PageSide.left true).spreads ≠ []
    ∧ (BookLayoutApp.create.load_book true
          (Except.ok
            (Json.obj
              [("settings", Json.obj []),
               ("spreads",
                Json.arr
                  [Json.obj
                    [("left_page", Json.obj [("image_path", Json.str "")]),
                     ("right_page", Json.obj [("image_path", Json.str "")])]])]))
          (fun _ => false)).1.spreads.length
      = 1 :=
  ⟨c3_book_nonempty_amended.2.2.2.1 BookLayoutApp.create 0 PageSide.left true
      (by decide),
   c3_book_nonempty_amended.2.2.2.2.2.2 BookLayoutApp.create (fun _ => false)
      [("settings", Json.obj []),
       ("spreads",
        Json.arr
          [Json.obj
            [("left_page", Json.obj [("image_path", Json.str "")]),
             ("right_page", Json.obj [("image_path", Json.str "")])]])]
      [Json.obj
        [("left_page", Json.obj [("image_path", Json.str "")]),
         ("right_page", Json.obj [("image_path", Json.str "")])]]
      rfl (by decide)⟩

/-- C4: the document built by `save_book` is an object with a `settings`
object holding exactly `page_width`, `page_number_start` and
`show_page_numbers` (with the current field values) and a `spreads` array
whose `i`-th element holds the image paths of the `i`-th spread. -/
theorem c4_save_document_shape (b : BookLayoutApp) :
    BookLayoutApp.save_book_data b
      = Json.obj
          [("settings",
            Json.obj
              [("page_width", Json.num b.current_page_width),
               ("page_number_start", Json.num b.page_number_start),
               ("show_page_numbers", Json.bool b.show_page_numbers)]),
           ("spreads", Json.arr (b.spreads.map BookLayoutApp.spread_to_json))]
    ∧ ∀ i : Nat, i < b.spreads.length →
        (b.spreads.map BookLayoutApp.spread_to_json).getD i Json.null
          = Json.obj
              [("left_page",
                Json.obj
                  [("image_path",
                    Json.str (b.spreads.getD i default).left_page.image_path)]),
               ("right_page",
                Json.obj
                  [("image_path",
                    Json.str (b.spreads.getD i default).right_page.image_path)])] := by
  refine ⟨rfl, ?_⟩
  intro i hi
  rw [List.getD_eq_getElem _ _ (by simpa using hi), List.getD_eq_getElem _ _ hi,
    List.getElem_map]
  rfl

/-- Witness for C4: the spread entry of the fresh one-spread book. -/
theorem c4_save_document_shape_witness :
    (BookLayoutApp.create.spreads.map BookLayoutApp.spread_to_json).getD 0 Json.null
      = Json.obj
          [("left_page",
            Json.obj
              [("image_path",
                Json.str
                  (BookLayoutApp.create.spreads.getD 0 default).left_page.image_path)]),
           ("right_page",
            Json.obj
              [("image_path",
                Json.str
                  (BookLayoutApp.create.spreads.getD 0
                      default).right_page.image_path)])] :=
  (c4_save_document_shape BookLayoutApp.create).2 0 (by decide)

/-- C8: when writing (save) or reading/parsing (load) raises, the operation
catches the exception — both functions are total, so nothing propagates —
leaves the state unchanged and reports the critical message box as shown. -/
theorem c8_io_errors_message_box (b : BookLayoutApp) (e : String)
    (file_exists : String → Bool) :
    b.save_book (Except.error e) = (b, true)
    ∧ b.load_book true (Except.error e) file_exists = (b, true) := by
  constructor
  · rfl
  · unfold BookLayoutApp.load_book
    simp

/-- C9: a spread's two page slots are created together by the constructor,
and every spread held by the state after any editing operation still has
exactly the two slots — pages have no independent lifecycle. -/
theorem c9_two_page_slots :
    (∀ n : Int, (SpreadWidget.create n).left_page = PageWidget.create n
      ∧ (SpreadWidget.create n).right_page = PageWidget.create (n + 1))
    ∧ (∀ s : SpreadWidget, (SpreadWidget.pages_of s).length = 2)
    ∧ (∀ (b : BookLayoutApp) (i j : Nat) (side : PageSide),
        (SpreadWidget.pages_of
          ((b.insert_new_page_before i side).spreads.getD j default)).length = 2
        ∧ (SpreadWidget.pages_of
            ((b.insert_new_page_after i side).spreads.getD j default)).length = 2
        ∧ (SpreadWidget.pages_of
            ((b.delete_page i side true).spreads.getD j default)).length = 2
        ∧ (SpreadWidget.pages_of
            ((b.swap_with_prev_page i side).spreads.getD j default)).length = 2
        ∧ (SpreadWidget.pages_of
            ((b.swap_with_next_page i side).spreads.getD j default)).length = 2) :=
  ⟨fun _ => ⟨rfl, rfl⟩, fun _ => rfl, fun _ _ _ _ => ⟨rfl, rfl, rfl, rfl, rfl⟩⟩

theorem map_eraseIdx_comm {α β : Type} (f : α → β) :
    ∀ (l : List α) (i : Nat), (l.eraseIdx i).map f = (l.map f).eraseIdx i := by
  intro l
  induction l with
  | nil => intro i; simp
  | cons a l ih =>
    intro i
    cases i with
    | zero => simp
    | succ n => simp [ih]

theorem eraseIdx_set_same {α : Type} :
    ∀ (l : List α) (i : Nat) (a : α), (l.set i a).eraseIdx i = l.eraseIdx i := by
  intro l
  induction l with
  | nil => intro i a; simp
  | cons x l ih =>
    intro i a
    cases i with
    | zero => simp
    | succ n => simp [ih]

theorem update_all_spread_paths (b : BookLayoutApp) :
    (b.update_all_page_numbers).spreads.map SpreadWidget.spread_paths
      = b.spreads.map SpreadWidget.spread_paths := by
  apply List.ext_getElem
  · simp [update_all_spreads_length]
  · intro n h1 h2
    simp only [List.getElem_map, BookLayoutApp.update_all_page_numbers,
      List.getElem_mapIdx]
    rfl

/-- C6: a confirmed `delete_page` first shifts content — right slot moved to
the left slot when a left page with a preceding spread is deleted, otherwise
only the deleted slot is cleared — and then removes the containing spread
exactly when both shifted slots are empty and more than one spread exists. -/
theorem c6_delete_with_auto_merge (b : BookLayoutApp) (i : Nat) (side : PageSide)
    (h : i < b.spreads.length) :
    (b.delete_page i side true).spreads.map SpreadWidget.spread_paths
      = (let s := b.spreads.getD i default
         let shifted : String × String :=
           match side with
           | PageSide.left =>
             if 0 < i then (s.right_page.image_path, "")
             else ("", s.right_page.image_path)
           | PageSide.right => (s.left_page.image_path, "")
         if shifted.1 = "" ∧ shifted.2 = "" ∧ 1 < b.spreads.length
         then (b.spreads.map SpreadWidget.spread_paths).eraseIdx i
         else (b.spreads.map SpreadWidget.spread_paths).set i shifted) := by
  unfold BookLayoutApp.delete_page
  rw [if_pos h, if_pos rfl]
  rw [update_all_spread_paths]
  rw [List.getD_eq_getElem _ _ h]
  cases side with
  | left =>
    by_cases hp : 0 < i
    · simp only [hp, if_true, PageWidget.load_image]
      by_cases hemp : (b.spreads[i]).right_page.image_path = ""
      · by_cases hlen : 1 < b.spreads.length
        all_goals
          simp only [hemp, hlen, eq_self_iff_true, and_true, true_and, and_false,
            false_and, and_self, if_true, if_false, ite_true, ite_false, ite_self,
            List.map_set, map_eraseIdx_comm, eraseIdx_set_same,
            SpreadWidget.spread_paths]
      · simp only [hemp, eq_self_iff_true, and_true, true_and, and_false,
          false_and, and_self, if_true, if_false, ite_true, ite_false, ite_self,
          List.map_set, SpreadWidget.spread_paths]
    · simp only [hp, if_false, PageWidget.load_image]
      by_cases hemp : (b.spreads[i]).right_page.image_path = ""
      · by_cases hlen : 1 < b.spreads.length
        all_goals
          simp only [hemp, hlen, eq_self_iff_true, and_true, true_and, and_false,
            false_and, and_self, if_true, if_false, ite_true, ite_false, ite_self,
            List.map_set, map_eraseIdx_comm, eraseIdx_set_same,
            SpreadWidget.spread_paths]
      · simp only [hemp, eq_self_iff_true, and_true, true_and, and_false,
          false_and, and_self, if_true, if_false, ite_true, ite_false, ite_self,
          List.map_set, SpreadWidget.spread_paths]
  | right =>
    simp only [ite_self, PageWidget.load_image]
    by_cases hemp : (b.spreads[i]).left_page.image_path = ""
    · by_cases hlen : 1 < b.spreads.length
      all_goals
        simp only [hemp, hlen, eq_self_iff_true, and_true, true_and, and_false,
          false_and, and_self, if_true, if_false, ite_true, ite_false, ite_self,
          List.map_set, map_eraseIdx_comm, eraseIdx_set_same,
          SpreadWidget.spread_paths]
    · simp only [hemp, eq_self_iff_true, and_true, true_and, and_false,
        false_and, and_self, if_true, if_false, ite_true, ite_false, ite_self,
        List.map_set, SpreadWidget.spread_paths]

/-- Witness for C6: deleting the left page of the only spread of a fresh
book (both slots empty afterwards, but it is the last spread, so it stays). -/
theorem c6_delete_with_auto_merge_witness :
    (BookLayoutApp.create.delete_page 0 PageSide.left true).spreads.map
        SpreadWidget.spread_paths
      = (let s := BookLayoutApp.create.spreads.getD 0 default
         let shifted : String × String :=
           match PageSide.left with
           | PageSide.left =>
             if 0 < 0 then (s.right_page.image_path, "")
             else ("", s.right_page.image_path)
           | PageSide.right => (s.left_page.image_path, "")
         if shifted.1 = "" ∧ shifted.2 = ""
              ∧ 1 < BookLayoutApp.create.spreads.length
         then (BookLayoutApp.create.spreads.map SpreadWidget.spread_paths).eraseIdx 0
         else (BookLayoutApp.create.spreads.map SpreadWidget.spread_paths).set 0
            shifted) :=
  c6_delete_with_auto_merge BookLayoutApp.create 0 PageSide.left (by decide)

theorem swap_pages_fst_path (p q : PageWidget) :
    (BookLayoutApp.swap_pages p q).1.image_path = q.image_path := by
  by_cases hq : q.image_path = ""
  · simp [BookLayoutApp.swap_pages, PageWidget.load_image, hq]
  · simp [BookLayoutApp.swap_pages, PageWidget.load_image, hq]

theorem swap_pages_snd_path (p q : PageWidget) :
    (BookLayoutApp.swap_pages p q).2.image_path = p.image_path := by
  by_cases hp : p.image_path = ""
  · simp [BookLayoutApp.swap_pages, PageWidget.load_image, hp]
  · simp [BookLayoutApp.swap_pages, PageWidget.load_image, hp]

/-- C7: `swap_with_next_page` exchanges a left page with the right page of
its spread, and a right page with the left page of the following spread when
one exists; `swap_with_prev_page` is symmetric; on the right page of the
last spread (next) or the left page of the first spread (prev) every image
path is unchanged; in all cases only the two swapped slots change and the
spread-list length is unchanged. -/
theorem c7_swap_with_neighbor (b : BookLayoutApp) (i : Nat) :
    (∀ side : PageSide,
      (b.swap_with_prev_page i side).spreads.length = b.spreads.length
      ∧ (b.swap_with_next_page i side).spreads.length = b.spreads.length)
    ∧ (i < b.spreads.length →
        ((b.swap_with_next_page i PageSide.left).spreads.map
            SpreadWidget.spread_paths
          = (b.spreads.map SpreadWidget.spread_paths).set i
              ((b.spreads.getD i default).right_page.image_path,
               (b.spreads.getD i default).left_page.image_path))
        ∧ ((b.swap_with_prev_page i PageSide.right).spreads.map
            SpreadWidget.spread_paths
          = (b.spreads.map SpreadWidget.spread_paths).set i
              ((b.spreads.getD i default).right_page.image_path,
               (b.spreads.getD i default).left_page.image_path))
        ∧ (i + 1 < b.spreads.length →
            (b.swap_with_next_page i PageSide.right).spreads.map
                SpreadWidget.spread_paths
              = ((b.spreads.map SpreadWidget.spread_paths).set i
                    ((b.spreads.getD i default).left_page.image_path,
                     (b.spreads.getD (i + 1) default).left_page.image_path)).set
                  (i + 1)
                  ((b.spreads.getD i default).right_page.image_path,
                   (b.spreads.getD (i + 1) default).right_page.image_path))
        ∧ (i + 1 = b.spreads.length →
            (b.swap_with_next_page i PageSide.right).spreads.map
                SpreadWidget.spread_paths
              = b.spreads.map SpreadWidget.spread_paths)
        ∧ (0 < i →
            (b.swap_with_prev_page i PageSide.left).spreads.map
                SpreadWidget.spread_paths
              = ((b.spreads.map SpreadWidget.spread_paths).set i
                    ((b.spreads.getD (i - 1) default).right_page.image_path,
                     (b.spreads.getD i default).right_page.image_path)).set (i - 1)
                  ((b.spreads.getD (i - 1) default).left_page.image_path,
                   (b.spreads.getD i default).left_page.image_path))
        ∧ (i = 0 →
            (b.swap_with_prev_page i PageSide.left).spreads.map
                SpreadWidget.spread_paths
              = b.spreads.map SpreadWidget.spread_paths)) := by
  refine ⟨fun side => ⟨swap_prev_spreads_length b i side,
    swap_next_spreads_length b i side⟩, fun h => ⟨?_, ?_, ?_, ?_, ?_, ?_⟩⟩
  · unfold BookLayoutApp.swap_with_next_page
    rw [if_pos h, update_all_spread_paths]
    simp only [List.map_set, SpreadWidget.spread_paths, swap_pages_fst_path,
      swap_pages_snd_path]
  · unfold BookLayoutApp.swap_with_prev_page
    rw [if_pos h, update_all_spread_paths]
    simp only [List.map_set, SpreadWidget.spread_paths, swap_pages_fst_path,
      swap_pages_snd_path]
  · intro hn
    unfold BookLayoutApp.swap_with_next_page
    rw [if_pos h, update_all_spread_paths]
    have hn' : i < b.spreads.length - 1 := by omega
    simp only [hn', if_true, List.map_set, SpreadWidget.spread_paths,
      swap_pages_fst_path, swap_pages_snd_path]
  · intro hn
    unfold BookLayoutApp.swap_with_next_page
    rw [if_pos h, update_all_spread_paths]
    have hn' : ¬ i < b.spreads.length - 1 := by omega
    simp only [hn', if_false]
  · intro hp
    unfold BookLayoutApp.swap_with_prev_page
    rw [if_pos h, update_all_spread_paths]
    simp only [hp, if_true, List.map_set, SpreadWidget.spread_paths,
      swap_pages_fst_path, swap_pages_snd_path]
  · intro hp
    subst hp
    unfold BookLayoutApp.swap_with_prev_page
    rw [if_pos h, update_all_spread_paths]
    simp

/-- Witness for C7 at a one-spread book with distinct paths: swapping the
left page with its neighbour exchanges the two slots of spread `0`. -/
theorem c7_swap_with_neighbor_witness :
    (BookLayoutApp.mk 300 [SpreadWidget.mk ⟨"a", 1⟩ ⟨"b", 2⟩] 1
          true |>.swap_with_next_page 0 PageSide.left).spreads.map
        SpreadWidget.spread_paths
      = ((BookLayoutApp.mk 300 [SpreadWidget.mk ⟨"a", 1⟩ ⟨"b", 2⟩] 1
            true).spreads.map SpreadWidget.spread_paths).set 0
          (((BookLayoutApp.mk 300 [SpreadWidget.mk ⟨"a", 1⟩ ⟨"b", 2⟩] 1
                true).spreads.getD 0 default).right_page.image_path,
           ((BookLayoutApp.mk 300 [SpreadWidget.mk ⟨"a", 1⟩ ⟨"b", 2⟩] 1
                true).spreads.getD 0 default).left_page.image_path) :=
  ((c7_swap_with_neighbor
      (BookLayoutApp.mk 300 [SpreadWidget.mk ⟨"a", 1⟩ ⟨"b", 2⟩] 1 true) 0).2
    (by decide)).1

theorem load_spread_entry_of_saved (file_exists : String → Bool)
    (s : SpreadWidget)
    (hl : s.left_page.image_path ≠ "" →
      file_exists s.left_page.image_path = true)
    (hr : s.right_page.image_path ≠ "" →
      file_exists s.right_page.image_path = true) :
    ∃ t : SpreadWidget,
      BookLayoutApp.load_spread_entry file_exists
          (BookLayoutApp.spread_to_json s) = some t
      ∧ SpreadWidget.spread_paths t = SpreadWidget.spread_paths s := by
  by_cases hl0 : s.left_page.image_path = ""
  · by_cases hr0 : s.right_page.image_path = ""
    · refine ⟨SpreadWidget.create 1, ?_, ?_⟩
      · simp [BookLayoutApp.load_spread_entry, BookLayoutApp.spread_to_json,
          Json.lookupD, hl0, hr0]
      · simp [hl0, hr0, SpreadWidget.spread_paths, SpreadWidget.create,
          PageWidget.create]
    · have hre := hr hr0
      refine ⟨{ left_page := (SpreadWidget.create 1).left_page,
                right_page :=
                  (SpreadWidget.create 1).right_page.load_image
                    s.right_page.image_path }, ?_, ?_⟩
      · simp [BookLayoutApp.load_spread_entry, BookLayoutApp.spread_to_json,
          Json.lookupD, hl0, hr0, hre]
      · simp [SpreadWidget.spread_paths, SpreadWidget.create, PageWidget.create,
          PageWidget.load_image, hl0]
  · have hle := hl hl0
    by_cases hr0 : s.right_page.image_path = ""
    · refine ⟨{ left_page :=
                  (SpreadWidget.create 1).left_page.load_image
                    s.left_page.image_path,
                right_page := (SpreadWidget.create 1).right_page }, ?_, ?_⟩
      · simp [BookLayoutApp.load_spread_entry, BookLayoutApp.spread_to_json,
          Json.lookupD, hl0, hr0, hle]
      · simp [SpreadWidget.spread_paths, SpreadWidget.create, PageWidget.create,
          PageWidget.load_image, hr0]
    · have hre := hr hr0
      refine ⟨{ left_page :=
                  (SpreadWidget.create 1).left_page.load_image
                    s.left_page.image_path,
                right_page :=
                  (SpreadWidget.create 1).right_page.load_image
                    s.right_page.image_path }, ?_, ?_⟩
      · simp [BookLayoutApp.load_spread_entry, BookLayoutApp.spread_to_json,
          Json.lookupD, hl0, hr0, hle, hre]
      · simp [SpreadWidget.spread_paths, SpreadWidget.create, PageWidget.create,
          PageWidget.load_image]

theorem load_spreads_loop_of_saved (file_exists : String → Bool) :
    ∀ ss : List SpreadWidget,
    (∀ s ∈ ss,
      (s.left_page.image_path ≠ "" →
        file_exists s.left_page.image_path = true)
      ∧ (s.right_page.image_path ≠ "" →
        file_exists s.right_page.image_path = true)) →
    (BookLayoutApp.load_spreads_loop file_exists
        (ss.map BookLayoutApp.spread_to_json)).2 = false
    ∧ (BookLayoutApp.load_spreads_loop file_exists
          (ss.map BookLayoutApp.spread_to_json)).1.map SpreadWidget.spread_paths
        = ss.map SpreadWidget.spread_paths := by
  intro ss
  induction ss with
  | nil => exact fun _ => ⟨rfl, rfl⟩
  | cons s rest ih =>
    intro hp
    obtain ⟨t, ht, hpt⟩ :=
      load_spread_entry_of_saved file_exists s (hp s (by simp)).1 (hp s (by simp)).2
    have hrest := ih (fun u hu => hp u (by simp [hu]))
    simp only [List.map_cons, BookLayoutApp.load_spreads_loop, ht]
    exact ⟨hrest.1, by simp [hpt, hrest.2]⟩

/-- C2: loading the document produced by `save_book` restores the same
`page_width`, `page_number_start` and `show_page_numbers` and the same
sequence of spreads with the same left/right image paths, provided every
non-empty saved path names an existing file. -/
theorem c2_json_roundtrip (b b0 : BookLayoutApp) (file_exists : String → Bool)
    (hp : ∀ s ∈ b.spreads,
      (s.left_page.image_path ≠ "" →
        file_exists s.left_page.image_path = true)
      ∧ (s.right_page.image_path ≠ "" →
        file_exists s.right_page.image_path = true)) :
    (b0.load_book true (Except.ok (BookLayoutApp.save_book_data b))
        file_exists).2 = false
    ∧ (b0.load_book true (Except.ok (BookLayoutApp.save_book_data b))
          file_exists).1.current_page_width = b.current_page_width
    ∧ (b0.load_book true (Except.ok (BookLayoutApp.save_book_data b))
          file_exists).1.page_number_start = b.page_number_start
    ∧ (b0.load_book true (Except.ok (BookLayoutApp.save_book_data b))
          file_exists).1.show_page_numbers = b.show_page_numbers
    ∧ (b0.load_book true (Except.ok (BookLayoutApp.save_book_data b))
          file_exists).1.spreads.map SpreadWidget.spread_paths
        = b.spreads.map SpreadWidget.spread_paths := by
  have hloop := load_spreads_loop_of_saved file_exists b.spreads hp
  unfold BookLayoutApp.load_book
  simp only [not_true, and_false, if_neg, ite_false, BookLayoutApp.save_book_data,
    BookLayoutApp.load_settings, Json.lookupD, String.reduceEq, reduceIte,
    hloop.1, Bool.false_eq_true, eq_self_iff_true, true_and, and_true]
  rw [update_all_spread_paths]
  simp only [BookLayoutApp.update_all_page_numbers]
  exact ⟨trivial, trivial, trivial, hloop.2⟩

/-- Witness for C2: a book with one spread whose left slot holds `a.png`,
with every file existing, round-trips. -/
theorem c2_json_roundtrip_witness :
    ((BookLayoutApp.create).load_book true
        (Except.ok
          (BookLayoutApp.save_book_data
            (BookLayoutApp.mk 320 [SpreadWidget.mk ⟨"a.png", 1⟩ ⟨"", 2⟩] 5 false)))
        (fun _ => true)).2 = false
    ∧ ((BookLayoutApp.create).load_book true
          (Except.ok
            (BookLayoutApp.save_book_data
              (BookLayoutApp.mk 320 [SpreadWidget.mk ⟨"a.png", 1⟩ ⟨"", 2⟩] 5
                false)))
          (fun _ => true)).1.current_page_width
        = (BookLayoutApp.mk 320 [SpreadWidget.mk ⟨"a.png", 1⟩ ⟨"", 2⟩] 5
            false).current_page_width
    ∧ ((BookLayoutApp.create).load_book true
          (Except.ok
            (BookLayoutApp.save_book_data
              (BookLayoutApp.mk 320 [SpreadWidget.mk ⟨"a.png", 1⟩ ⟨"", 2⟩] 5
                false)))
          (fun _ => true)).1.page_number_start
        = (BookLayoutApp.mk 320 [SpreadWidget.mk ⟨"a.png", 1⟩ ⟨"", 2⟩] 5
            false).page_number_start
    ∧ ((BookLayoutApp.create).load_book true
          (Except.ok
            (BookLayoutApp.save_book_data
              (BookLayoutApp.mk 320 [SpreadWidget.mk ⟨"a.png", 1⟩ ⟨"", 2⟩] 5
                false)))
          (fun _ => true)).1.show_page_numbers
        = (BookLayoutApp.mk 320 [SpreadWidget.mk ⟨"a.png", 1⟩ ⟨"", 2⟩] 5
            false).show_page_numbers
    ∧ ((BookLayoutApp.create).load_book true
          (Except.ok
            (BookLayoutApp.save_book_data
              (BookLayoutApp.mk 320 [SpreadWidget.mk ⟨"a.png", 1⟩ ⟨"", 2⟩] 5
                false)))
          (fun _ => true)).1.spreads.map SpreadWidget.spread_paths
        = (BookLayoutApp.mk 320 [SpreadWidget.mk ⟨"a.png", 1⟩ ⟨"", 2⟩] 5
            false).spreads.map SpreadWidget.spread_paths :=
  c2_json_roundtrip
    (BookLayoutApp.mk 320 [SpreadWidget.mk ⟨"a.png", 1⟩ ⟨"", 2⟩] 5 false)
    BookLayoutApp.create (fun _ => true) (by decide)

theorem update_all_getD_paths (b : BookLayoutApp) (i : Nat)
    (h : i < b.spreads.length) :
    SpreadWidget.spread_paths ((b.update_all_page_numbers).spreads.getD i default)
      = SpreadWidget.spread_paths (b.spreads.getD i default) := by
  have h' : i < (b.update_all_page_numbers).spreads.length := by
    rw [update_all_spreads_length]; exact h
  rw [List.getD_eq_getElem _ _ h', List.getD_eq_getElem _ _ h]
  have h2 := congrArg (fun l => l.getD i ("", "")) (update_all_spread_paths b)
  simp only at h2
  rw [List.getD_eq_getElem _ _ (by simpa using h'),
    List.getD_eq_getElem _ _ (by simpa using h), List.getElem_map,
    List.getElem_map] at h2
  exact h2

theorem load_spread_entry_left_skip (file_exists : String → Bool)
    (t : SpreadWidget) (obj_fs lfs : List (String × Json)) (p : String)
    (hL : Json.lookupD obj_fs "left_page" (Json.obj []) = Json.obj lfs)
    (hp : Json.lookupD lfs "image_path" (Json.str "") = Json.str p)
    (hmiss : file_exists p = false)
    (hsome : BookLayoutApp.load_spread_entry file_exists (Json.obj obj_fs)
      = some t) :
    t.left_page.image_path = "" := by
  simp only [BookLayoutApp.load_spread_entry, hL, hp, hmiss, and_false,
    if_false, Bool.false_eq_true, ite_false] at hsome
  cases hR : Json.lookupD obj_fs "right_page" (Json.obj []) with
  | obj rfs =>
    simp only [hR] at hsome
    cases hq : Json.lookupD rfs "image_path" (Json.str "") with
    | str q =>
      simp only [hq, Option.some_inj] at hsome
      rw [← hsome]
      split <;> rfl
    | null => simp only [hq] at hsome; cases hsome
    | bool x => simp only [hq] at hsome; cases hsome
    | num x => simp only [hq] at hsome; cases hsome
    | arr x => simp only [hq] at hsome; cases hsome
    | obj x => simp only [hq] at hsome; cases hsome
  | null => simp only [hR] at hsome; cases hsome
  | bool x => simp only [hR] at hsome; cases hsome
  | num x => simp only [hR] at hsome; cases hsome
  | str x => simp only [hR] at hsome; cases hsome
  | arr x => simp only [hR] at hsome; cases hsome

theorem load_spread_entry_right_skip (file_exists : String → Bool)
    (t : SpreadWidget) (obj_fs rfs : List (String × Json)) (p : String)
    (hR : Json.lookupD obj_fs "right_page" (Json.obj []) = Json.obj rfs)
    (hp : Json.lookupD rfs "image_path" (Json.str "") = Json.str p)
    (hmiss : file_exists p = false)
    (hsome : BookLayoutApp.load_spread_entry file_exists (Json.obj obj_fs)
      = some t) :
    t.right_page.image_path = "" := by
  simp only [BookLayoutApp.load_spread_entry] at hsome
  cases hL : Json.lookupD obj_fs "left_page" (Json.obj []) with
  | obj lfs =>
    simp only [hL] at hsome
    cases hq : Json.lookupD lfs "image_path" (Json.str "") with
    | str q =>
      simp only [hq, hR, hp] at hsome
      simp only [hmiss, and_false, if_false, Bool.false_eq_true, ite_false,
        Option.some_inj] at hsome
      rw [← hsome]
      split <;> rfl
    | null => simp only [hq] at hsome; cases hsome
    | bool x => simp only [hq] at hsome; cases hsome
    | num x => simp only [hq] at hsome; cases hsome
    | arr x => simp only [hq] at hsome; cases hsome
    | obj x => simp only [hq] at hsome; cases hsome
  | null => simp only [hL] at hsome; cases hsome
  | bool x => simp only [hL] at hsome; cases hsome
  | num x => simp only [hL] at hsome; cases hsome
  | str x => simp only [hL] at hsome; cases hsome
  | arr x => simp only [hL] at hsome; cases hsome

theorem load_spreads_loop_ok (file_exists : String → Bool) :
    ∀ entries : List Json,
    (∀ i : Nat, i < entries.length →
      (BookLayoutApp.load_spread_entry file_exists
        (entries.getD i Json.null)).isSome) →
    (BookLayoutApp.load_spreads_loop file_exists entries).2 = false
    ∧ (BookLayoutApp.load_spreads_loop file_exists entries).1.length
        = entries.length
    ∧ ∀ i : Nat, i < entries.length →
        BookLayoutApp.load_spread_entry file_exists (entries.getD i Json.null)
          = some
              ((BookLayoutApp.load_spreads_loop file_exists entries).1.getD i
                default) := by
  intro entries
  induction entries with
  | nil => intro h; refine ⟨rfl, rfl, fun i hi => absurd hi (by simp)⟩
  | cons e rest ih =>
    intro h
    have h0 := h 0 (by simp)
    obtain ⟨s, hs⟩ := Option.isSome_iff_exists.mp (by simpa using h0)
    have hrest := ih (fun i hi => by simpa using h (i + 1) (by simpa using hi))
    simp only [BookLayoutApp.load_spreads_loop, List.getD_cons_zero] at hs ⊢
    rw [hs]
    refine ⟨hrest.1, by simp [hrest.2.1], ?_⟩
    intro i hi
    cases i with
    | zero => simpa using hs
    | succ n =>
      have := hrest.2.2 n (by simpa using hi)
      simpa using this

/-- C5: when `load_book` reaches a spread entry whose `image_path` is
non-empty but names a file that does not exist, it still creates the spread,
leaves that slot empty, and finishes without any error message. -/
theorem c5_missing_files_skipped (b : BookLayoutApp) (file_exists : String → Bool)
    (fs : List (String × Json)) (entries : List Json)
    (hset : (BookLayoutApp.load_settings
      (Json.lookupD fs "settings" (Json.obj []))).isSome)
    (hspr : Json.lookupD fs "spreads" (Json.arr []) = Json.arr entries)
    (hentries : ∀ i : Nat, i < entries.length →
      (BookLayoutApp.load_spread_entry file_exists
        (entries.getD i Json.null)).isSome) :
    (b.load_book true (Except.ok (Json.obj fs)) file_exists).2 = false
    ∧ (b.load_book true (Except.ok (Json.obj fs)) file_exists).1.spreads.length
        = entries.length
    ∧ (∀ i : Nat, i < entries.length →
        ∀ (obj_fs lfs : List (String × Json)) (p : String),
        entries.getD i Json.null = Json.obj obj_fs →
        Json.lookupD obj_fs "left_page" (Json.obj []) = Json.obj lfs →
        Json.lookupD lfs "image_path" (Json.str "") = Json.str p →
        p ≠ "" → file_exists p = false →
        (((b.load_book true (Except.ok (Json.obj fs))
              file_exists).1.spreads.getD i default)).left_page.image_path = "")
    ∧ (∀ i : Nat, i < entries.length →
        ∀ (obj_fs rfs : List (String × Json)) (p : String),
        entries.getD i Json.null = Json.obj obj_fs →
        Json.lookupD obj_fs "right_page" (Json.obj []) = Json.obj rfs →
        Json.lookupD rfs "image_path" (Json.str "") = Json.str p →
        p ≠ "" → file_exists p = false →
        (((b.load_book true (Except.ok (Json.obj fs))
              file_exists).1.spreads.getD i default)).right_page.image_path
          = "") := by
  obtain ⟨⟨pw, pns, spn⟩, hsetv⟩ := Option.isSome_iff_exists.mp hset
  have hloop := load_spreads_loop_ok file_exists entries hentries
  have hres :
      b.load_book true (Except.ok (Json.obj fs)) file_exists
        = (BookLayoutApp.update_all_page_numbers
            { current_page_width := pw
              spreads :=
                (BookLayoutApp.load_spreads_loop file_exists entries).1
              page_number_start := pns
              show_page_numbers := spn }, false) := by
    unfold BookLayoutApp.load_book
    simp only [not_true, and_false, if_neg, ite_false, hsetv, hspr, hloop.1,
      Bool.false_eq_true]
  rw [hres]
  have hlen : (BookLayoutApp.load_spreads_loop file_exists entries).1.length
      = entries.length := hloop.2.1
  refine ⟨rfl, by simpa [update_all_spreads_length] using hlen, ?_, ?_⟩
  · intro i hi obj_fs lfs p hobj hL hp hne hmiss
    have hent := hloop.2.2 i hi
    rw [hobj] at hent
    have hpaths := update_all_getD_paths
      { current_page_width := pw
        spreads := (BookLayoutApp.load_spreads_loop file_exists entries).1
        page_number_start := pns
        show_page_numbers := spn } i (by simpa [hlen] using hi)
    have hskip := load_spread_entry_left_skip file_exists _ obj_fs lfs p hL hp
      hmiss hent
    have hcomp := congrArg Prod.fst hpaths
    simp only [SpreadWidget.spread_paths] at hcomp
    exact hcomp.trans hskip
  · intro i hi obj_fs rfs p hobj hR hp hne hmiss
    have hent := hloop.2.2 i hi
    rw [hobj] at hent
    have hpaths := update_all_getD_paths
      { current_page_width := pw
        spreads := (BookLayoutApp.load_spreads_loop file_exists entries).1
        page_number_start := pns
        show_page_numbers := spn } i (by simpa [hlen] using hi)
    have hskip := load_spread_entry_right_skip file_exists _ obj_fs rfs p hR hp
      hmiss hent
    have hcomp := congrArg Prod.snd hpaths
    simp only [SpreadWidget.spread_paths] at hcomp
    exact hcomp.trans hskip


/-- Witness for C5: a one-entry document whose left path `missing.png` does
not exist loads without error into one spread with an empty left slot. -/
theorem c5_missing_files_skipped_witness :
    (BookLayoutApp.create.load_book true
        (Except.ok
          (Json.obj
            [("settings", Json.obj []),
             ("spreads",
              Json.arr
                [Json.obj
                  [("left_page",
                    Json.obj [("image_path", Json.str "missing.png")]),
                   ("right_page", Json.obj [("image_path", Json.str "")])]])]))
        (fun _ => false)).2 = false
    ∧ (BookLayoutApp.create.load_book true
          (Except.ok
            (Json.obj
              [("settings", Json.obj []),
               ("spreads",
                Json.arr
                  [Json.obj
                    [("left_page",
                      Json.obj [("image_path", Json.str "missing.png")]),
                     ("right_page", Json.obj [("image_path", Json.str "")])]])]))
          (fun _ => false)).1.spreads.length = 1
    ∧ ((BookLayoutApp.create.load_book true
          (Except.ok
            (Json.obj
              [("settings", Json.obj []),
               ("spreads",
                Json.arr
                  [Json.obj
                    [("left_page",
                      Json.obj [("image_path", Json.str "missing.png")]),
                     ("right_page", Json.obj [("image_path", Json.str "")])]])]))
          (fun _ => false)).1.spreads.getD 0 default).left_page.image_path
        = "" := by
  have main := c5_missing_files_skipped BookLayoutApp.create (fun _ => false)
    [("settings", Json.obj []),
     ("spreads",
      Json.arr
        [Json.obj
          [("left_page", Json.obj [("image_path", Json.str "missing.png")]),
           ("right_page", Json.obj [("image_path", Json.str "")])]])]
    [Json.obj
      [("left_page", Json.obj [("image_path", Json.str "missing.png")]),
       ("right_page", Json.obj [("image_path", Json.str "")])]]
    (by decide) rfl (by decide)
  exact ⟨main.1, main.2.1,
    main.2.2.1 0 (by decide)
      [("left_page", Json.obj [("image_path", Json.str "missing.png")]),
       ("right_page", Json.obj [("image_path", Json.str "")])]
      [("image_path", Json.str "missing.png")] "missing.png" rfl rfl rfl
      (by decide) rfl⟩
